import Mathlib

/-!
Verification of the datalake metadata normalizer (`datalake/metadata.py`).

The Python source builds a `Metadata(dict)` record from a caller-supplied
mapping: it deep-copies the input, injects defaults (`id`, `version`,
`work_id`), validates required fields and the schema version, and normalizes
the `start`/`end` timestamps.  Here the pipeline is embedded shallowly:

* Python values are the inductive `Value`; a Python `float` is modelled by
  its exact rational value `PyFloat` (an integer numerator over a positive
  natural denominator), so `int(x * 1000.0)` becomes exact integer
  truncation toward zero.
* a Python `dict` is an association list `PyDict` with first-occurrence
  lookup and in-place update;
* exceptions become the `Except PyError` monad: `InvalidDatalakeMetadata`
  and `UnsupportedDatalakeMetadataVersion` are the two typed errors of the
  source, and `valueError`/`typeError` model the Python builtin exceptions
  raised by the external date parser;
* the random `uuid4().hex` default is passed in as the `freshId` argument.
-/

set_option autoImplicit false

namespace Datalake

/-- Exact rational model of a Python `float` value: the float `num / den`
with a positive denominator (every finite Python float is such a rational).
Floating-point rounding of the source's `date * 1000.0` is not modelled;
arithmetic on the value is exact. -/
structure PyFloat where
  num : Int
  den : Nat
  den_pos : 0 < den

/-- Universe of Python values a caller may place in the input mapping. -/
inductive Value where
  | null
  | int (n : Int)
  | float (q : PyFloat)
  | str (s : String)
  | list (vs : List Value)
  | dict (fields : List (String × Value))

/-- Python `v is None`. -/
def Value.isNull : Value → Bool
  | .null => true
  | _ => false

/-- Python equality test `v == n` against an `int` constant `n`:
ints and floats compare numerically, every other value is unequal
(no value in our universe overloads `__eq__` against ints). -/
def pyEqIntConst (n : Int) : Value → Bool
  | .int m => m == n
  | .float q => q.num == n * (q.den : Int)
  | _ => false

/-- Python `str(v)`, only as far as the error messages of the source need
it: formatting of a `str` is its contents (which is all the reachable
error messages ever format); the renderings of the other variants are
model-level placeholders. -/
def valueStr : Value → String
  | .null => "None"
  | .int n => toString n
  | .float q => toString q.num ++ "/" ++ toString q.den
  | .str s => s
  | .list _ => "<list>"
  | .dict _ => "<dict>"

/-- A Python `dict` with `String` keys: an association list where the first
occurrence of a key is its binding. -/
abbrev PyDict := List (String × Value)

/-- Key lookup, `d[k]` / `d.get(k)` before defaulting. -/
def lookupKey : PyDict → String → Option Value
  | [], _ => none
  | (k', v) :: rest, k => if k' = k then some v else lookupKey rest k

/-- Python `d[k] = v`: replace the binding of `k` if present, else append. -/
def storeKey : PyDict → String → Value → PyDict
  | [], k, v => [(k, v)]
  | (k', v') :: rest, k, v =>
      if k' = k then (k, v) :: rest else (k', v') :: storeKey rest k v

/-- Python `k in d`. -/
def hasKey (d : PyDict) (k : String) : Bool := (lookupKey d k).isSome

/-- Python `d.get(k)`: the stored value, or `None` when the key is absent.
This is exactly the test the source's `_validate_required_fields` makes, so
an absent key and a stored `None` are indistinguishable to it. -/
def getOrNone (d : PyDict) (k : String) : Value := (lookupKey d k).getD .null

/-- The Python exceptions reachable from `Metadata.__init__`:
the two exception classes declared by `datalake/metadata.py`, plus the
builtin `ValueError`/`TypeError` that the external date parser raises. -/
inductive PyError where
  | invalidMetadata (msg : String)
  | unsupportedVersion (msg : String)
  | valueError (msg : String)
  | typeError (msg : String)

/-- A parsed datetime as the source uses it: seconds since
1970-01-01T00:00:00 read off the fields at face value (ignoring any
timezone), plus the timezone offset in seconds when the value is aware
(`tzinfo` set), `none` when naive.  The modelled parser below only
produces whole seconds, so the seconds are an `Int`. -/
structure PyDateTime where
  naiveEpochSeconds : Int
  tzOffsetSeconds : Option Int

/-- Python `d.replace(tzinfo=utc)` on the datetimes we model. -/
def replaceTzUtc (d : PyDateTime) : PyDateTime :=
  PyDateTime.mk d.naiveEpochSeconds (some 0)

/-- `Metadata._datetime_to_milliseconds`: `int((d - _EPOCH).total_seconds() * 1000.0)`.
The instant of an aware datetime is its face-value seconds minus its
timezone offset; `_EPOCH` is instant `0`.  Every call site has made `d`
aware, so the `getD 0` default is never exercised. -/
def datetime_to_milliseconds (d : PyDateTime) : Int :=
  (d.naiveEpochSeconds - d.tzOffsetSeconds.getD 0) * 1000

/-! ### Modelled external date parser -/

/-- Numeric value of a decimal digit character. -/
def digitVal (c : Char) : Option Nat :=
  if c.isDigit then some (c.toNat - 48) else none

/-- Two decimal digits. -/
def twoDigits (a b : Char) : Option Nat :=
  match digitVal a, digitVal b with
  | some x, some y => some (10 * x + y)
  | _, _ => none

/-- Four decimal digits. -/
def fourDigits (a b c d : Char) : Option Nat :=
  match twoDigits a b, twoDigits c d with
  | some x, some y => some (100 * x + y)
  | _, _ => none

/-- Gregorian leap-year rule. -/
def isLeapYear (y : Nat) : Bool :=
  y % 4 == 0 && (y % 100 != 0 || y % 400 == 0)

/-- Length of month `m` of year `y`. -/
def daysInMonth (y m : Nat) : Nat :=
  if m == 2 then (if isLeapYear y then 29 else 28)
  else if m == 4 || m == 6 || m == 9 || m == 11 then 30
  else 31

/-- Days from 1970-01-01 to the civil date `y-m-d` (standard
era/year-of-era day count, valid for `1 ≤ y`). -/
def daysFromCivil (y m d : Nat) : Int :=
  let yy := if m ≤ 2 then y - 1 else y
  let era := yy / 400
  let yoe := yy % 400
  let mp := (m + 9) % 12
  let doy := (153 * mp + 2) / 5 + (d - 1)
  let doe := yoe * 365 + yoe / 4 - yoe / 100 + doy
  ((era * 146097 + doe : Nat) : Int) - 719468

/-- Timezone suffix of an ISO-8601 timestamp: empty (naive), `Z` (UTC), or
`±HH:MM`, yielding the offset in seconds (`none` in the result means a
naive datetime). -/
def tzOffsetOfSuffix : List Char → Option (Option Int)
  | [] => some none
  | ['Z'] => some (some 0)
  | [sgn, h1, h2, ':', m1, m2] =>
      match twoDigits h1 h2, twoDigits m1 m2 with
      | some hh, some mm =>
          if (sgn = '+' || sgn = '-') && hh ≤ 23 && mm ≤ 59 then
            let secs : Int := ((hh * 3600 + mm * 60 : Nat) : Int)
            some (some (if sgn = '+' then secs else -secs))
          else none
      | _, _ => none
  | _ => none

/-- Character-level ISO-8601 parse: `YYYY-MM-DDTHH:MM:SS` plus an optional
timezone suffix, with calendar-valid field ranges. -/
def parseISOChars : List Char → Option PyDateTime
  | y1 :: y2 :: y3 :: y4 :: '-' :: mo1 :: mo2 :: '-' :: d1 :: d2 :: 'T' ::
      h1 :: h2 :: ':' :: mi1 :: mi2 :: ':' :: s1 :: s2 :: rest =>
      match fourDigits y1 y2 y3 y4, twoDigits mo1 mo2, twoDigits d1 d2,
            twoDigits h1 h2, twoDigits mi1 mi2, twoDigits s1 s2,
            tzOffsetOfSuffix rest with
      | some y, some mo, some dy, some hh, some mi, some ss, some off =>
          if 1 ≤ y && 1 ≤ mo && mo ≤ 12 && 1 ≤ dy && dy ≤ daysInMonth y mo
              && hh ≤ 23 && mi ≤ 59 && ss ≤ 59 then
            some (PyDateTime.mk
              (daysFromCivil y mo dy * 86400 + ((hh * 3600 + mi * 60 + ss : Nat) : Int))
              off)
          else none
      | _, _, _, _, _, _, _ => none
  | _ => none

/-- Modelled from the spec: the permissive date/time parsing routine is the
third-party `dateutil.parser.parse`, an external collaborator not present
under `src/` (spec section 6: "a date/time parsing routine accepting a broad
range of human- and machine-generated timestamp string formats and returning
a ... instant (or signaling failure to parse)").  We model the ISO-8601
subset `YYYY-MM-DDTHH:MM:SS` with an optional `Z`/`±HH:MM` suffix; a naive
string yields a datetime without a timezone offset.  Failure to parse is the
parser's `ValueError`; a non-string argument raises `TypeError`, as the
Python parser does. -/
def dateparse (v : Value) : Except PyError PyDateTime :=
  match v with
  | .str s =>
      match parseISOChars s.toList with
      | some d => .ok d
      | none => .error (.valueError ("Unknown string format: " ++ s))
  | _ => .error (.typeError "Parser must be a string or character stream")

/-! ### The pipeline of `Metadata.__init__` -/

/-- `Metadata._VERSION`. -/
def VERSION : Int := 0

/-- `Metadata._ensure_id`: inject a fresh `uuid4().hex` (passed in as
`freshId`) when `id` is absent. -/
def ensure_id (freshId : String) (m : PyDict) : PyDict :=
  if hasKey m "id" then m else storeKey m "id" (.str freshId)

/-- `Metadata._ensure_version`. -/
def ensure_version (m : PyDict) : PyDict :=
  if hasKey m "version" then m else storeKey m "version" (.int VERSION)

/-- `Metadata._ensure_work_id`. -/
def ensure_work_id (m : PyDict) : PyDict :=
  if hasKey m "work_id" then m else storeKey m "work_id" .null

/-- The three default-injection steps of `__init__`, in source order. -/
def defaults (freshId : String) (m : PyDict) : PyDict :=
  ensure_work_id (ensure_version (ensure_id freshId m))

/-- `Metadata._REQUIRED_METADATA_FIELDS`. -/
def REQUIRED_METADATA_FIELDS : List String :=
  ["version", "start", "where", "what", "id", "hash"]

/-- The message of `_validate_required_fields` (sic: "require" is the
source's own typo). -/
def requireFieldMsg (f : String) : String :=
  "\"" ++ f ++ "\" is a require field"

/-- The loop body of `Metadata._validate_required_fields`: raise
`InvalidDatalakeMetadata` at the first field whose `self.get(f)` is `None`. -/
def checkRequired (m : PyDict) : List String → Except PyError Unit
  | [] => .ok ()
  | f :: fs =>
      if (getOrNone m f).isNull then
        .error (.invalidMetadata (requireFieldMsg f))
      else checkRequired m fs

/-- `Metadata._validate_required_fields`. -/
def validate_required_fields (m : PyDict) : Except PyError Unit :=
  checkRequired m REQUIRED_METADATA_FIELDS

/-- `Metadata._validate_version`: raise `UnsupportedDatalakeMetadataVersion`
when `self['version'] != self._VERSION` (Python `!=`, so a float equal to
the version passes).  Reached only after the required-field check, so
`version` is present and `self['version']` agrees with `getOrNone`. -/
def validate_version (m : PyDict) : Except PyError Unit :=
  if pyEqIntConst VERSION (getOrNone m "version") then .ok ()
  else
    .error (.unsupportedVersion
      ("Found version " ++ valueStr (getOrNone m "version") ++
        ". Only " ++ toString VERSION ++ " is supported"))

/-- `Metadata._validate`. -/
def validate (m : PyDict) : Except PyError Unit :=
  match validate_required_fields m with
  | .ok _ => validate_version m
  | .error e => .error e

/-- The source's inline `int(date * 1000.0)` on a float `date`, in exact
arithmetic: multiply by 1000 and truncate toward zero (`Int.tdiv` is
truncated division, and the denominator is positive). -/
def floatTimes1000Trunc (q : PyFloat) : Int :=
  (q.num * 1000).tdiv (q.den : Int)

/-- `Metadata._normalize_date_from_string`: parse, assume UTC when the
parse is naive, convert to epoch milliseconds; a `ValueError` from the
parser becomes `InvalidDatalakeMetadata`, any other exception (notably
`TypeError`) escapes. -/
def normalize_date_from_string (date : Value) : Except PyError Value :=
  match dateparse date with
  | .ok d =>
      let d2 := if d.tzOffsetSeconds.isNone then replaceTzUtc d else d
      .ok (.int (datetime_to_milliseconds d2))
  | .error (.valueError _) =>
      .error (.invalidMetadata ("could not parse a date from " ++ valueStr date))
  | .error e => .error e

/-- `Metadata._normalize_date`: exact-type dispatch on `int`, `float`,
else the string path. -/
def normalize_date : Value → Except PyError Value
  | .int n => .ok (.int n)
  | .float q => .ok (.int (floatTimes1000Trunc q))
  | v => normalize_date_from_string v

/-- One iteration of the `_normalize_dates` loop for field `k`:
`if k in self: self[k] = _normalize_date(self[k])`. -/
def normalize_date_field (m : PyDict) (k : String) : Except PyError PyDict :=
  if hasKey m k then
    match normalize_date (getOrNone m k) with
    | .ok v => .ok (storeKey m k v)
    | .error e => .error e
  else .ok m

/-- `Metadata._normalize_dates`: the loop over `['start', 'end']`. -/
def normalize_dates (m : PyDict) : Except PyError PyDict :=
  match normalize_date_field m "start" with
  | .ok m1 => normalize_date_field m1 "end"
  | .error e => .error e

/-- `Metadata.__init__` as a function from the caller's mapping to the
normalized record or the raised exception.  The deep copy of the input is
the identity in this pure embedding (aliasing has no observable meaning
here); `freshId` stands for the `uuid4().hex` drawn when `id` is absent. -/
def normalize (freshId : String) (input : PyDict) : Except PyError PyDict :=
  match validate (defaults freshId input) with
  | .ok _ => normalize_dates (defaults freshId input)
  | .error e => .error e

/-! ### Observations on results, used to state the claims -/

/-- The run succeeded. -/
def isOkResult : Except PyError PyDict → Bool
  | .ok _ => true
  | .error _ => false

/-- The run raised `InvalidDatalakeMetadata`. -/
def isInvalidMetadataErr : Except PyError PyDict → Bool
  | .error (.invalidMetadata _) => true
  | _ => false

/-- The run raised `UnsupportedDatalakeMetadataVersion`. -/
def isUnsupportedVersionErr : Except PyError PyDict → Bool
  | .error (.unsupportedVersion _) => true
  | _ => false

/-- The run raised a builtin `TypeError` (escaping untyped). -/
def isTypeErrorResult : Except PyError PyDict → Bool
  | .error (.typeError _) => true
  | _ => false

/-- The run succeeded and the record's `id` is present and non-null. -/
def resultHasNonNullId : Except PyError PyDict → Bool
  | .ok rec => !(getOrNone rec "id").isNull
  | .error _ => false

/-- `_normalize_date` accepts the value (used to say a `start`/`end` value
is normalizable). -/
def isNormalizable (v : Value) : Bool :=
  match normalize_date v with
  | .ok _ => true
  | .error _ => false

/-- The value is neither an `int`, nor a `float`, nor a `str` (the three
shapes `_normalize_date` handles without a `TypeError` from the parser). -/
def notIntFloatStr : Value → Bool
  | .int _ => false
  | .float _ => false
  | .str _ => false
  | _ => true

/-- The spec's target value for a parsed `start`/`end` string: the signed
millisecond offset of the parsed instant from 1970-01-01T00:00:00 UTC,
with UTC assumed when the parse carries no timezone offset (the
truncation toward zero is exact here because the modelled parser produces
whole seconds). -/
def msSinceEpochSpec (d : PyDateTime) : Int :=
  (d.naiveEpochSeconds - d.tzOffsetSeconds.getD 0) * 1000

end Datalake

namespace Datalake

/-! ### Dictionary lemmas -/

theorem lookupKey_storeKey_self (d : PyDict) (k : String) (v : Value) :
    lookupKey (storeKey d k v) k = some v := by
  induction d with
  | nil => simp [storeKey, lookupKey]
  | cons kv rest ih =>
      by_cases h : kv.1 = k
      · simp [storeKey, lookupKey, h]
      · simp [storeKey, lookupKey, h, ih]

theorem lookupKey_storeKey_ne (d : PyDict) (k k' : String) (v : Value)
    (h : k' ≠ k) : lookupKey (storeKey d k v) k' = lookupKey d k' := by
  have h2 : k ≠ k' := Ne.symm h
  induction d with
  | nil => simp [storeKey, lookupKey, h2]
  | cons kv rest ih =>
      obtain ⟨a, b⟩ := kv
      by_cases hk : a = k
      · subst hk
        simp [storeKey, lookupKey, h2]
      · by_cases hk' : a = k'
        · simp [storeKey, lookupKey, hk, hk', h]
        · simp [storeKey, lookupKey, hk, hk', ih]

theorem getOrNone_storeKey_self (d : PyDict) (k : String) (v : Value) :
    getOrNone (storeKey d k v) k = v := by
  simp [getOrNone, lookupKey_storeKey_self]

theorem getOrNone_storeKey_ne (d : PyDict) (k k' : String) (v : Value)
    (h : k' ≠ k) : getOrNone (storeKey d k v) k' = getOrNone d k' := by
  simp [getOrNone, lookupKey_storeKey_ne d k k' v h]

theorem hasKey_storeKey_self (d : PyDict) (k : String) (v : Value) :
    hasKey (storeKey d k v) k = true := by
  simp [hasKey, lookupKey_storeKey_self]

theorem hasKey_storeKey_ne (d : PyDict) (k k' : String) (v : Value)
    (h : k' ≠ k) : hasKey (storeKey d k v) k' = hasKey d k' := by
  simp [hasKey, lookupKey_storeKey_ne d k k' v h]

theorem hasKey_of_isNull_false (d : PyDict) (k : String)
    (h : (getOrNone d k).isNull = false) : hasKey d k = true := by
  unfold getOrNone at h
  unfold hasKey
  cases hl : lookupKey d k with
  | none => rw [hl] at h; simp [Value.isNull] at h
  | some v => simp

theorem getOrNone_of_hasKey_false (d : PyDict) (k : String)
    (h : hasKey d k = false) : getOrNone d k = .null := by
  unfold hasKey at h
  unfold getOrNone
  cases hl : lookupKey d k with
  | none => simp
  | some v => rw [hl] at h; simp at h

/-! ### Default-injection lemmas -/

theorem lookupKey_ensure_id_ne (fid : String) (m : PyDict) (k : String)
    (h : k ≠ "id") : lookupKey (ensure_id fid m) k = lookupKey m k := by
  unfold ensure_id
  by_cases hm : hasKey m "id"
  · simp [hm]
  · simp [hm, lookupKey_storeKey_ne m "id" k _ h]

theorem lookupKey_ensure_version_ne (m : PyDict) (k : String)
    (h : k ≠ "version") : lookupKey (ensure_version m) k = lookupKey m k := by
  unfold ensure_version
  by_cases hm : hasKey m "version"
  · simp [hm]
  · simp [hm, lookupKey_storeKey_ne m "version" k _ h]

theorem lookupKey_ensure_work_id_ne (m : PyDict) (k : String)
    (h : k ≠ "work_id") : lookupKey (ensure_work_id m) k = lookupKey m k := by
  unfold ensure_work_id
  by_cases hm : hasKey m "work_id"
  · simp [hm]
  · simp [hm, lookupKey_storeKey_ne m "work_id" k _ h]

theorem lookupKey_defaults_ne (fid : String) (m : PyDict) (k : String)
    (h1 : k ≠ "id") (h2 : k ≠ "version") (h3 : k ≠ "work_id") :
    lookupKey (defaults fid m) k = lookupKey m k := by
  unfold defaults
  rw [lookupKey_ensure_work_id_ne _ _ h3, lookupKey_ensure_version_ne _ _ h2,
    lookupKey_ensure_id_ne _ _ _ h1]

theorem getOrNone_defaults_ne (fid : String) (m : PyDict) (k : String)
    (h1 : k ≠ "id") (h2 : k ≠ "version") (h3 : k ≠ "work_id") :
    getOrNone (defaults fid m) k = getOrNone m k := by
  simp [getOrNone, lookupKey_defaults_ne fid m k h1 h2 h3]

theorem hasKey_defaults_ne (fid : String) (m : PyDict) (k : String)
    (h1 : k ≠ "id") (h2 : k ≠ "version") (h3 : k ≠ "work_id") :
    hasKey (defaults fid m) k = hasKey m k := by
  simp [hasKey, lookupKey_defaults_ne fid m k h1 h2 h3]

theorem getOrNone_defaults_id (fid : String) (m : PyDict) :
    getOrNone (defaults fid m) "id" =
      if hasKey m "id" then getOrNone m "id" else .str fid := by
  unfold defaults
  have h1 : ("id" : String) ≠ "version" := by decide
  have h2 : ("id" : String) ≠ "work_id" := by decide
  have hw : getOrNone (ensure_work_id (ensure_version (ensure_id fid m))) "id" =
      getOrNone (ensure_id fid m) "id" := by
    simp [getOrNone, lookupKey_ensure_work_id_ne _ _ h2,
      lookupKey_ensure_version_ne _ _ h1]
  rw [hw]
  unfold ensure_id
  by_cases hm : hasKey m "id"
  · simp [hm]
  · simp [hm, getOrNone_storeKey_self]

theorem getOrNone_defaults_version (fid : String) (m : PyDict) :
    getOrNone (defaults fid m) "version" =
      if hasKey m "version" then getOrNone m "version" else .int VERSION := by
  unfold defaults
  have h1 : ("version" : String) ≠ "work_id" := by decide
  have h2 : ("version" : String) ≠ "id" := by decide
  have hw : getOrNone (ensure_work_id (ensure_version (ensure_id fid m))) "version" =
      getOrNone (ensure_version (ensure_id fid m)) "version" := by
    simp [getOrNone, lookupKey_ensure_work_id_ne _ _ h1]
  rw [hw]
  have hk : hasKey (ensure_id fid m) "version" = hasKey m "version" := by
    simp [hasKey, lookupKey_ensure_id_ne fid m "version" h2]
  unfold ensure_version
  by_cases hm : hasKey m "version"
  · simp [hk, hm, getOrNone, lookupKey_ensure_id_ne fid m "version" h2]
  · simp [hk, hm, getOrNone_storeKey_self]

theorem defaults_eq_self (fid : String) (m : PyDict)
    (h1 : hasKey m "id" = true) (h2 : hasKey m "version" = true)
    (h3 : hasKey m "work_id" = true) : defaults fid m = m := by
  unfold defaults ensure_id
  rw [if_pos h1]
  unfold ensure_version
  rw [if_pos h2]
  unfold ensure_work_id
  rw [if_pos h3]

/-! ### Required-field check lemmas -/

theorem checkRequired_ok (m : PyDict) (fs : List String)
    (h : ∀ f ∈ fs, (getOrNone m f).isNull = false) :
    checkRequired m fs = .ok () := by
  induction fs with
  | nil => rfl
  | cons f fs ih =>
      unfold checkRequired
      rw [h f (List.mem_cons_self f fs)]
      simp only [Bool.false_eq_true, if_false]
      exact ih fun g hg => h g (List.mem_cons_of_mem f hg)

theorem checkRequired_err (m : PyDict) (fs : List String) (f : String)
    (hmem : f ∈ fs) (hnull : (getOrNone m f).isNull = true) :
    ∃ msg, checkRequired m fs = .error (.invalidMetadata msg) := by
  induction fs with
  | nil => cases hmem
  | cons g fs ih =>
      unfold checkRequired
      by_cases hg : (getOrNone m g).isNull = true
      · exact ⟨requireFieldMsg g, by rw [hg]; simp⟩
      · have hf : f ∈ fs := by
          rcases List.mem_cons.mp hmem with h | h
          · exact absurd (h ▸ hnull) hg
          · exact h
        rcases ih hf with ⟨msg, hmsg⟩
        refine ⟨msg, ?_⟩
        simp only [Bool.not_eq_true] at hg
        rw [hg]
        simpa using hmsg

theorem pyEqIntConst_isNull_false (n : Int) (v : Value)
    (h : pyEqIntConst n v = true) : v.isNull = false := by
  cases v <;> simp_all [pyEqIntConst, Value.isNull]

/-! ### Date-normalization step lemmas -/

theorem normalize_date_field_ok_of_absent (m : PyDict) (k : String)
    (h : hasKey m k = false) : normalize_date_field m k = .ok m := by
  unfold normalize_date_field
  rw [h]
  simp

theorem normalize_date_field_ok_of_norm (m : PyDict) (k : String) (v : Value)
    (hk : hasKey m k = true) (hn : normalize_date (getOrNone m k) = .ok v) :
    normalize_date_field m k = .ok (storeKey m k v) := by
  unfold normalize_date_field
  rw [hk, hn]
  simp

theorem normalize_date_field_err (m : PyDict) (k : String) (e : PyError)
    (hk : hasKey m k = true) (hn : normalize_date (getOrNone m k) = .error e) :
    normalize_date_field m k = .error e := by
  unfold normalize_date_field
  rw [hk, hn]
  simp

theorem normalize_date_field_preserves_lookup (m r : PyDict) (k k' : String)
    (h : normalize_date_field m k = .ok r) (hne : k' ≠ k) :
    lookupKey r k' = lookupKey m k' := by
  unfold normalize_date_field at h
  by_cases hk : hasKey m k
  · rw [if_pos hk] at h
    cases hn : normalize_date (getOrNone m k) with
    | ok v =>
        rw [hn] at h
        simp only [Except.ok.injEq] at h
        rw [← h, lookupKey_storeKey_ne m k k' v hne]
    | error e => rw [hn] at h; cases h
  · simp only [hk, Bool.false_eq_true, if_false, Except.ok.injEq] at h
    rw [h]

theorem normalize_date_field_preserves_getOrNone (m r : PyDict) (k k' : String)
    (h : normalize_date_field m k = .ok r) (hne : k' ≠ k) :
    getOrNone r k' = getOrNone m k' := by
  simp [getOrNone, normalize_date_field_preserves_lookup m r k k' h hne]

theorem normalize_date_field_preserves_hasKey (m r : PyDict) (k k' : String)
    (h : normalize_date_field m k = .ok r) (hne : k' ≠ k) :
    hasKey r k' = hasKey m k' := by
  simp [hasKey, normalize_date_field_preserves_lookup m r k k' h hne]

/-! ### Pipeline inversion and composite lemmas -/

theorem normalize_ok_inv (fid : String) (input rec : PyDict)
    (h : normalize fid input = .ok rec) :
    validate (defaults fid input) = .ok () ∧
      normalize_dates (defaults fid input) = .ok rec := by
  unfold normalize at h
  cases hv : validate (defaults fid input) with
  | ok u => cases u; exact ⟨rfl, by rw [hv] at h; simpa using h⟩
  | error e => rw [hv] at h; simp at h

theorem normalize_dates_ok_inv (m rec : PyDict)
    (h : normalize_dates m = .ok rec) :
    ∃ m1, normalize_date_field m "start" = .ok m1 ∧
      normalize_date_field m1 "end" = .ok rec := by
  unfold normalize_dates at h
  cases hs : normalize_date_field m "start" with
  | ok m1 => exact ⟨m1, rfl, by rw [hs] at h; simpa using h⟩
  | error e => rw [hs] at h; simp at h

theorem normalize_err_of_validate (fid : String) (input : PyDict) (e : PyError)
    (h : validate (defaults fid input) = .error e) :
    normalize fid input = .error e := by
  unfold normalize
  rw [h]

theorem normalize_of_validate_ok (fid : String) (input : PyDict)
    (h : validate (defaults fid input) = .ok ()) :
    normalize fid input = normalize_dates (defaults fid input) := by
  unfold normalize
  rw [h]

theorem isNormalizable_not_null (v : Value) (h : isNormalizable v = true) :
    v.isNull = false := by
  cases v <;> simp_all [isNormalizable, normalize_date, normalize_date_from_string,
    dateparse, Value.isNull]

theorem isNormalizable_ok (v : Value) (h : isNormalizable v = true) :
    ∃ w, normalize_date v = .ok w := by
  unfold isNormalizable at h
  cases hn : normalize_date v with
  | ok w => exact ⟨w, rfl⟩
  | error e => rw [hn] at h; simp at h

theorem defaults_id_isNull_false (fid : String) (input : PyDict)
    (hid : hasKey input "id" = true → (getOrNone input "id").isNull = false) :
    (getOrNone (defaults fid input) "id").isNull = false := by
  rw [getOrNone_defaults_id]
  by_cases hk : hasKey input "id" = true
  · rw [if_pos hk]; exact hid hk
  · simp only [Bool.not_eq_true] at hk
    simp only [hk, Bool.false_eq_true, if_false]
    rfl

/-- When `version` and the caller-supplied required fields are non-null and
`id`, when supplied, is non-null, the required-field loop passes on the
defaulted record. -/
theorem required_defaults_ok (fid : String) (input : PyDict)
    (hver : (getOrNone input "version").isNull = false)
    (hstart : (getOrNone input "start").isNull = false)
    (hwhere : (getOrNone input "where").isNull = false)
    (hwhat : (getOrNone input "what").isNull = false)
    (hhash : (getOrNone input "hash").isNull = false)
    (hid : hasKey input "id" = true → (getOrNone input "id").isNull = false) :
    validate_required_fields (defaults fid input) = .ok () := by
  have hvkey : hasKey input "version" = true :=
    hasKey_of_isNull_false input "version" hver
  have hvv : getOrNone (defaults fid input) "version" = getOrNone input "version" := by
    rw [getOrNone_defaults_version, if_pos hvkey]
  have hidv := defaults_id_isNull_false fid input hid
  unfold validate_required_fields
  apply checkRequired_ok
  intro f hf
  have hs : getOrNone (defaults fid input) "start" = getOrNone input "start" :=
    getOrNone_defaults_ne fid input "start" (by decide) (by decide) (by decide)
  have hw : getOrNone (defaults fid input) "where" = getOrNone input "where" :=
    getOrNone_defaults_ne fid input "where" (by decide) (by decide) (by decide)
  have hx : getOrNone (defaults fid input) "what" = getOrNone input "what" :=
    getOrNone_defaults_ne fid input "what" (by decide) (by decide) (by decide)
  have hh : getOrNone (defaults fid input) "hash" = getOrNone input "hash" :=
    getOrNone_defaults_ne fid input "hash" (by decide) (by decide) (by decide)
  simp only [REQUIRED_METADATA_FIELDS, List.mem_cons, List.not_mem_nil, or_false] at hf
  rcases hf with rfl | rfl | rfl | rfl | rfl | rfl
  · rw [hvv]; exact hver
  · rw [hs]; exact hstart
  · rw [hw]; exact hwhere
  · rw [hx]; exact hwhat
  · exact hidv
  · rw [hh]; exact hhash

/-- Under the intended preconditions, validation of the defaulted record
succeeds: `version` equals the supported version, the caller-supplied
required fields are non-null, and `id`, when supplied, is non-null. -/
theorem validate_defaults_ok (fid : String) (input : PyDict)
    (hver : pyEqIntConst VERSION (getOrNone input "version") = true)
    (hstart : (getOrNone input "start").isNull = false)
    (hwhere : (getOrNone input "where").isNull = false)
    (hwhat : (getOrNone input "what").isNull = false)
    (hhash : (getOrNone input "hash").isNull = false)
    (hid : hasKey input "id" = true → (getOrNone input "id").isNull = false) :
    validate (defaults fid input) = .ok () := by
  have hnn := pyEqIntConst_isNull_false _ _ hver
  have hreq := required_defaults_ok fid input hnn hstart hwhere hwhat hhash hid
  have hvkey : hasKey input "version" = true := hasKey_of_isNull_false input "version" hnn
  have hvv : getOrNone (defaults fid input) "version" = getOrNone input "version" := by
    rw [getOrNone_defaults_version, if_pos hvkey]
  unfold validate
  rw [hreq]
  unfold validate_version
  rw [hvv, hver]
  simp

end Datalake

namespace Datalake

/-! ### Evaluation lemmas for `_normalize_date` -/

theorem normalize_date_str_fail (s : String)
    (hp : parseISOChars s.toList = none) :
    normalize_date (.str s) =
      .error (.invalidMetadata ("could not parse a date from " ++ s)) := by
  have hp' : parseISOChars s.data = none := hp
  simp [normalize_date, normalize_date_from_string, dateparse, hp', valueStr]

theorem normalize_date_str_ok (s : String) (d : PyDateTime)
    (hp : parseISOChars s.toList = some d) :
    normalize_date (.str s) = .ok (.int (msSinceEpochSpec d)) := by
  have hp' : parseISOChars s.data = some d := hp
  have h1 : normalize_date (.str s) =
      .ok (.int (datetime_to_milliseconds
        (if d.tzOffsetSeconds.isNone then replaceTzUtc d else d))) := by
    simp [normalize_date, normalize_date_from_string, dateparse, hp']
  rw [h1]
  cases hoff : d.tzOffsetSeconds with
  | none => simp [hoff, replaceTzUtc, datetime_to_milliseconds, msSinceEpochSpec]
  | some o => simp [hoff, datetime_to_milliseconds, msSinceEpochSpec]

theorem normalize_date_typeErr (v : Value) (hv : notIntFloatStr v = true) :
    normalize_date v =
      .error (.typeError "Parser must be a string or character stream") := by
  cases v <;>
    simp_all [notIntFloatStr, normalize_date, normalize_date_from_string, dateparse]

/-! ### Composites for the date loop -/

theorem normalize_dates_err_start (m : PyDict) (e : PyError)
    (h : normalize_date_field m "start" = .error e) :
    normalize_dates m = .error e := by
  unfold normalize_dates
  rw [h]

theorem normalize_dates_err_end (m m1 : PyDict) (e : PyError)
    (h1 : normalize_date_field m "start" = .ok m1)
    (h2 : normalize_date_field m1 "end" = .error e) :
    normalize_dates m = .error e := by
  unfold normalize_dates
  rw [h1]
  exact h2

theorem normalize_dates_ok (m m1 m2 : PyDict)
    (h1 : normalize_date_field m "start" = .ok m1)
    (h2 : normalize_date_field m1 "end" = .ok m2) :
    normalize_dates m = .ok m2 := by
  unfold normalize_dates
  rw [h1]
  exact h2

/-- A caller-supplied required field (other than the defaultable three)
that is absent or null forces the `InvalidDatalakeMetadata` of the
required-field loop. -/
theorem normalize_invalid_of_field_null (fid : String) (input : PyDict)
    (f : String) (hmem : f ∈ REQUIRED_METADATA_FIELDS)
    (h1 : f ≠ "id") (h2 : f ≠ "version") (h3 : f ≠ "work_id")
    (hnull : (getOrNone input f).isNull = true) :
    ∃ msg, normalize fid input = .error (.invalidMetadata msg) := by
  have hp : (getOrNone (defaults fid input) f).isNull = true := by
    rw [getOrNone_defaults_ne fid input f h1 h2 h3]
    exact hnull
  rcases checkRequired_err (defaults fid input) REQUIRED_METADATA_FIELDS f hmem hp with
    ⟨msg, hmsg⟩
  refine ⟨msg, ?_⟩
  apply normalize_err_of_validate
  unfold validate
  have : validate_required_fields (defaults fid input) = .error (.invalidMetadata msg) := hmsg
  rw [this]

/-- After a successful run, the `start` field of the record is the
`_normalize_date` image of the caller-supplied `start`. -/
theorem rec_start_eq_of_norm (fid : String) (input rec : PyDict) (v w : Value)
    (h : normalize fid input = .ok rec)
    (hv : getOrNone input "start" = v) (hnn : v.isNull = false)
    (hnw : normalize_date v = .ok w) :
    getOrNone rec "start" = w := by
  rcases normalize_ok_inv fid input rec h with ⟨hval, hdates⟩
  rcases normalize_dates_ok_inv _ _ hdates with ⟨m1, hstart, hend⟩
  have hsv : getOrNone (defaults fid input) "start" = v := by
    rw [getOrNone_defaults_ne fid input "start" (by decide) (by decide) (by decide)]
    exact hv
  have hks : hasKey (defaults fid input) "start" = true :=
    hasKey_of_isNull_false _ _ (by rw [hsv]; exact hnn)
  have h1 : normalize_date_field (defaults fid input) "start" =
      .ok (storeKey (defaults fid input) "start" w) :=
    normalize_date_field_ok_of_norm _ _ _ hks (by rw [hsv]; exact hnw)
  have hm1 : m1 = storeKey (defaults fid input) "start" w :=
    Except.ok.inj (hstart.symm.trans h1)
  have hg1 : getOrNone m1 "start" = w := by
    rw [hm1, getOrNone_storeKey_self]
  rw [normalize_date_field_preserves_getOrNone m1 rec "end" "start" hend (by decide),
    hg1]

/-- After a successful run, the `end` field of the record, when supplied,
is the `_normalize_date` image of the caller-supplied `end`. -/
theorem rec_end_eq_of_norm (fid : String) (input rec : PyDict) (v w : Value)
    (h : normalize fid input = .ok rec)
    (hv : getOrNone input "end" = v) (hnn : v.isNull = false)
    (hnw : normalize_date v = .ok w) :
    getOrNone rec "end" = w := by
  rcases normalize_ok_inv fid input rec h with ⟨hval, hdates⟩
  rcases normalize_dates_ok_inv _ _ hdates with ⟨m1, hstart, hend⟩
  have hev : getOrNone (defaults fid input) "end" = v := by
    rw [getOrNone_defaults_ne fid input "end" (by decide) (by decide) (by decide)]
    exact hv
  have hke : hasKey (defaults fid input) "end" = true :=
    hasKey_of_isNull_false _ _ (by rw [hev]; exact hnn)
  have hgm1 : getOrNone m1 "end" = v := by
    rw [normalize_date_field_preserves_getOrNone (defaults fid input) m1 "start" "end"
      hstart (by decide), hev]
  have hkm1 : hasKey m1 "end" = true := by
    rw [normalize_date_field_preserves_hasKey (defaults fid input) m1 "start" "end"
      hstart (by decide)]
    exact hke
  have h2 : normalize_date_field m1 "end" = .ok (storeKey m1 "end" w) :=
    normalize_date_field_ok_of_norm _ _ _ hkm1 (by rw [hgm1]; exact hnw)
  have hrec : rec = storeKey m1 "end" w := Except.ok.inj (hend.symm.trans h2)
  rw [hrec, getOrNone_storeKey_self]

end Datalake

namespace Datalake

/-- Claim C2 (confirmed): for every input mapping in which any of the
required fields `start`, `where`, `what`, or `hash` is absent or null
(these fields are never default-injected, so before and after default
injection coincide), `normalize` fails with the Invalid Metadata error. -/
theorem claim_C2 (fid : String) (input : PyDict)
    (h : (getOrNone input "start").isNull = true ∨
      (getOrNone input "where").isNull = true ∨
      (getOrNone input "what").isNull = true ∨
      (getOrNone input "hash").isNull = true) :
    isInvalidMetadataErr (normalize fid input) = true := by
  have key : ∃ msg, normalize fid input = .error (.invalidMetadata msg) := by
    rcases h with h | h | h | h
    · exact normalize_invalid_of_field_null fid input "start" (by decide)
        (by decide) (by decide) (by decide) h
    · exact normalize_invalid_of_field_null fid input "where" (by decide)
        (by decide) (by decide) (by decide) h
    · exact normalize_invalid_of_field_null fid input "what" (by decide)
        (by decide) (by decide) (by decide) h
    · exact normalize_invalid_of_field_null fid input "hash" (by decide)
        (by decide) (by decide) (by decide) h
  rcases key with ⟨msg, hmsg⟩
  rw [hmsg]
  rfl

/-- Claim C3 (confirmed): for every input whose `version` is present,
non-null and not (Python-)equal to the supported schema version `0`, while
the other required fields are present and non-null (`id`, when supplied,
non-null), `normalize` fails with the Unsupported Metadata Version error, a
kind distinct from Invalid Metadata. -/
theorem claim_C3 (fid : String) (input : PyDict)
    (hvn : (getOrNone input "version").isNull = false)
    (hv : pyEqIntConst VERSION (getOrNone input "version") = false)
    (hstart : (getOrNone input "start").isNull = false)
    (hwhere : (getOrNone input "where").isNull = false)
    (hwhat : (getOrNone input "what").isNull = false)
    (hhash : (getOrNone input "hash").isNull = false)
    (hid : hasKey input "id" = true → (getOrNone input "id").isNull = false) :
    isUnsupportedVersionErr (normalize fid input) = true ∧
      isInvalidMetadataErr (normalize fid input) = false := by
  have hreq := required_defaults_ok fid input hvn hstart hwhere hwhat hhash hid
  have hvkey : hasKey input "version" = true :=
    hasKey_of_isNull_false input "version" hvn
  have hvv : getOrNone (defaults fid input) "version" = getOrNone input "version" := by
    rw [getOrNone_defaults_version, if_pos hvkey]
  have hval : validate (defaults fid input) =
      .error (.unsupportedVersion
        ("Found version " ++ valueStr (getOrNone input "version") ++
          ". Only " ++ toString VERSION ++ " is supported")) := by
    unfold validate
    rw [hreq]
    unfold validate_version
    rw [hvv, hv]
    simp
  rw [normalize_err_of_validate fid input _ hval]
  exact ⟨rfl, rfl⟩

/-- Claim C4 (confirmed): on every successful run, an integer `start` is
passed through unchanged and a float `start` becomes the integer obtained
by multiplying its exact value by 1000 and truncating toward zero; the
same holds for `end` when present. -/
theorem claim_C4 (fid : String) (input rec : PyDict)
    (h : normalize fid input = .ok rec) :
    (∀ n : Int, getOrNone input "start" = .int n → getOrNone rec "start" = .int n) ∧
    (∀ q : PyFloat, getOrNone input "start" = .float q →
      getOrNone rec "start" = .int (floatTimes1000Trunc q)) ∧
    (∀ n : Int, getOrNone input "end" = .int n → getOrNone rec "end" = .int n) ∧
    (∀ q : PyFloat, getOrNone input "end" = .float q →
      getOrNone rec "end" = .int (floatTimes1000Trunc q)) := by
  refine ⟨fun n hn => ?_, fun q hq => ?_, fun n hn => ?_, fun q hq => ?_⟩
  · exact rec_start_eq_of_norm fid input rec _ _ h hn rfl rfl
  · exact rec_start_eq_of_norm fid input rec _ _ h hq rfl rfl
  · exact rec_end_eq_of_norm fid input rec _ _ h hn rfl rfl
  · exact rec_end_eq_of_norm fid input rec _ _ h hq rfl rfl

/-- Claim C5 (confirmed, with the external parser modelled from the spec):
on every successful run whose `start` is a parseable date/time string, the
output `start` is the signed millisecond offset of the parsed instant from
1970-01-01T00:00:00 UTC, with UTC assumed when the string carries no
timezone offset (`msSinceEpochSpec`); in particular both
`"1970-01-01T00:00:01Z"` and `"1970-01-01T00:00:01"` yield `start = 1000`
(see the witness). -/
theorem claim_C5 (fid : String) (input rec : PyDict) (s : String) (d : PyDateTime)
    (hs : getOrNone input "start" = .str s)
    (hp : parseISOChars s.toList = some d)
    (h : normalize fid input = .ok rec) :
    getOrNone rec "start" = .int (msSinceEpochSpec d) :=
  rec_start_eq_of_norm fid input rec _ _ h hs rfl (normalize_date_str_ok s d hp)

/-- Claim C8 (confirmed): if `id`, `version` and `work_id` are already
present in the input, a successful run preserves their bindings unchanged
in the output (defaults are injected only when the field is absent). -/
theorem claim_C8 (fid : String) (input rec : PyDict)
    (hid : hasKey input "id" = true)
    (hver : hasKey input "version" = true)
    (hwid : hasKey input "work_id" = true)
    (h : normalize fid input = .ok rec) :
    lookupKey rec "id" = lookupKey input "id" ∧
      lookupKey rec "version" = lookupKey input "version" ∧
      lookupKey rec "work_id" = lookupKey input "work_id" := by
  rcases normalize_ok_inv fid input rec h with ⟨hval, hdates⟩
  rcases normalize_dates_ok_inv _ _ hdates with ⟨m1, hstart, hend⟩
  have hdef : defaults fid input = input := defaults_eq_self fid input hid hver hwid
  rw [hdef] at hstart
  refine ⟨?_, ?_, ?_⟩
  · rw [normalize_date_field_preserves_lookup m1 rec "end" "id" hend (by decide),
      normalize_date_field_preserves_lookup input m1 "start" "id" hstart (by decide)]
  · rw [normalize_date_field_preserves_lookup m1 rec "end" "version" hend (by decide),
      normalize_date_field_preserves_lookup input m1 "start" "version" hstart (by decide)]
  · rw [normalize_date_field_preserves_lookup m1 rec "end" "work_id" hend (by decide),
      normalize_date_field_preserves_lookup input m1 "start" "work_id" hstart (by decide)]

end Datalake

namespace Datalake

/-- Claim C1 (corrected): for every input containing `version` equal to the
supported schema version `0` and non-null, normalizable `start`, `where`,
`what`, `hash` — provided additionally that an `id` supplied by the caller
is non-null and an `end` supplied by the caller is normalizable (the
counterexample shows the claim fails without these provisos) — `normalize`
succeeds and the returned record contains a non-null `id`. -/
theorem claim_C1 (fid : String) (input : PyDict)
    (hver : pyEqIntConst VERSION (getOrNone input "version") = true)
    (hstart : isNormalizable (getOrNone input "start") = true)
    (hwhere : (getOrNone input "where").isNull = false)
    (hwhat : (getOrNone input "what").isNull = false)
    (hhash : (getOrNone input "hash").isNull = false)
    (hid : hasKey input "id" = true → (getOrNone input "id").isNull = false)
    (hend : hasKey input "end" = true →
      isNormalizable (getOrNone input "end") = true) :
    resultHasNonNullId (normalize fid input) = true := by
  have hstartN : (getOrNone input "start").isNull = false :=
    isNormalizable_not_null _ hstart
  have hval := validate_defaults_ok fid input hver hstartN hwhere hwhat hhash hid
  have hnorm := normalize_of_validate_ok fid input hval
  have hsv : getOrNone (defaults fid input) "start" = getOrNone input "start" :=
    getOrNone_defaults_ne fid input "start" (by decide) (by decide) (by decide)
  have hks : hasKey (defaults fid input) "start" = true :=
    hasKey_of_isNull_false _ _ (by rw [hsv]; exact hstartN)
  rcases isNormalizable_ok _ hstart with ⟨w, hw⟩
  have h1 : normalize_date_field (defaults fid input) "start" =
      .ok (storeKey (defaults fid input) "start" w) :=
    normalize_date_field_ok_of_norm _ _ _ hks (by rw [hsv]; exact hw)
  have hidn : (getOrNone (defaults fid input) "id").isNull = false :=
    defaults_id_isNull_false fid input hid
  have hkend : hasKey (storeKey (defaults fid input) "start" w) "end" =
      hasKey input "end" := by
    rw [hasKey_storeKey_ne _ _ _ _ (by decide)]
    exact hasKey_defaults_ne fid input "end" (by decide) (by decide) (by decide)
  by_cases hke : hasKey input "end" = true
  · rcases isNormalizable_ok _ (hend hke) with ⟨w2, hw2⟩
    have hgv : getOrNone (storeKey (defaults fid input) "start" w) "end" =
        getOrNone input "end" := by
      rw [getOrNone_storeKey_ne _ _ _ _ (by decide)]
      exact getOrNone_defaults_ne fid input "end" (by decide) (by decide) (by decide)
    have h2 : normalize_date_field (storeKey (defaults fid input) "start" w) "end" =
        .ok (storeKey (storeKey (defaults fid input) "start" w) "end" w2) :=
      normalize_date_field_ok_of_norm _ _ _ (by rw [hkend]; exact hke)
        (by rw [hgv]; exact hw2)
    have hdone := normalize_dates_ok _ _ _ h1 h2
    rw [hnorm, hdone]
    have hgid : getOrNone
        (storeKey (storeKey (defaults fid input) "start" w) "end" w2) "id" =
        getOrNone (defaults fid input) "id" := by
      rw [getOrNone_storeKey_ne _ _ _ _ (by decide),
        getOrNone_storeKey_ne _ _ _ _ (by decide)]
    simp [resultHasNonNullId, hgid, hidn]
  · simp only [Bool.not_eq_true] at hke
    have h2 : normalize_date_field (storeKey (defaults fid input) "start" w) "end" =
        .ok (storeKey (defaults fid input) "start" w) :=
      normalize_date_field_ok_of_absent _ _ (by rw [hkend]; exact hke)
    have hdone := normalize_dates_ok _ _ _ h1 h2
    rw [hnorm, hdone]
    have hgid : getOrNone (storeKey (defaults fid input) "start" w) "id" =
        getOrNone (defaults fid input) "id" := by
      rw [getOrNone_storeKey_ne _ _ _ _ (by decide)]
    simp [resultHasNonNullId, hgid, hidn]

/-- Claim C1, counterexample to the claim as stated: this input contains
`version = 0`, a normalizable non-null `start`, and non-null `where`,
`what`, `hash` — every condition the claim places on the input — yet
`normalize` raises `InvalidDatalakeMetadata`, because the input also
carries an explicit null `id`, which default injection does not replace
and the required-field check rejects. -/
theorem claim_C1_cex :
    pyEqIntConst VERSION (getOrNone
      [("version", Value.int 0), ("start", Value.int 0), ("where", Value.str "w"),
        ("what", Value.str "x"), ("hash", Value.str "h"), ("id", Value.null)]
      "version") = true ∧
    isNormalizable (getOrNone
      [("version", Value.int 0), ("start", Value.int 0), ("where", Value.str "w"),
        ("what", Value.str "x"), ("hash", Value.str "h"), ("id", Value.null)]
      "start") = true ∧
    (getOrNone
      [("version", Value.int 0), ("start", Value.int 0), ("where", Value.str "w"),
        ("what", Value.str "x"), ("hash", Value.str "h"), ("id", Value.null)]
      "where").isNull = false ∧
    (getOrNone
      [("version", Value.int 0), ("start", Value.int 0), ("where", Value.str "w"),
        ("what", Value.str "x"), ("hash", Value.str "h"), ("id", Value.null)]
      "what").isNull = false ∧
    (getOrNone
      [("version", Value.int 0), ("start", Value.int 0), ("where", Value.str "w"),
        ("what", Value.str "x"), ("hash", Value.str "h"), ("id", Value.null)]
      "hash").isNull = false ∧
    normalize "deadbeef"
      [("version", Value.int 0), ("start", Value.int 0), ("where", Value.str "w"),
        ("what", Value.str "x"), ("hash", Value.str "h"), ("id", Value.null)] =
      .error (.invalidMetadata "\"id\" is a require field") :=
  ⟨rfl, rfl, rfl, rfl, rfl, rfl⟩

end Datalake

namespace Datalake

/-- On an input whose validation passes, a `start` that is a string the
parser rejects makes the run fail with the parse-failure
`InvalidDatalakeMetadata` naming the value. -/
theorem normalize_parse_fail_start (fid : String) (input : PyDict) (s : String)
    (hval : validate (defaults fid input) = .ok ())
    (hs : getOrNone input "start" = .str s)
    (hp : parseISOChars s.toList = none) :
    normalize fid input =
      .error (.invalidMetadata ("could not parse a date from " ++ s)) := by
  have hsv : getOrNone (defaults fid input) "start" = .str s := by
    rw [getOrNone_defaults_ne fid input "start" (by decide) (by decide) (by decide)]
    exact hs
  have hks : hasKey (defaults fid input) "start" = true :=
    hasKey_of_isNull_false _ _ (by rw [hsv]; rfl)
  have herr : normalize_date_field (defaults fid input) "start" =
      .error (.invalidMetadata ("could not parse a date from " ++ s)) :=
    normalize_date_field_err _ _ _ hks
      (by rw [hsv]; exact normalize_date_str_fail s hp)
  rw [normalize_of_validate_ok fid input hval]
  exact normalize_dates_err_start _ _ herr

/-- Claim C6 (confirmed, with the external parser modelled from the spec):
when the required fields are present and non-null and the version is the
supported one, a `start` — or, with `start` normalizable, an `end` — that
is a string the date parser cannot parse makes `normalize` fail with the
Invalid Metadata error whose message describes the unparsable value. -/
theorem claim_C6 (fid : String) (input : PyDict)
    (hver : pyEqIntConst VERSION (getOrNone input "version") = true)
    (hwhere : (getOrNone input "where").isNull = false)
    (hwhat : (getOrNone input "what").isNull = false)
    (hhash : (getOrNone input "hash").isNull = false)
    (hid : hasKey input "id" = true → (getOrNone input "id").isNull = false) :
    (∀ s : String, getOrNone input "start" = .str s →
      parseISOChars s.toList = none →
      normalize fid input =
        .error (.invalidMetadata ("could not parse a date from " ++ s))) ∧
    (∀ t : String, isNormalizable (getOrNone input "start") = true →
      getOrNone input "end" = .str t → parseISOChars t.toList = none →
      normalize fid input =
        .error (.invalidMetadata ("could not parse a date from " ++ t))) := by
  constructor
  · intro s hs hp
    have hval := validate_defaults_ok fid input hver (by rw [hs]; rfl)
      hwhere hwhat hhash hid
    exact normalize_parse_fail_start fid input s hval hs hp
  · intro t hstart hetv hp
    have hstartN : (getOrNone input "start").isNull = false :=
      isNormalizable_not_null _ hstart
    have hval := validate_defaults_ok fid input hver hstartN hwhere hwhat hhash hid
    have hsv : getOrNone (defaults fid input) "start" = getOrNone input "start" :=
      getOrNone_defaults_ne fid input "start" (by decide) (by decide) (by decide)
    have hks : hasKey (defaults fid input) "start" = true :=
      hasKey_of_isNull_false _ _ (by rw [hsv]; exact hstartN)
    rcases isNormalizable_ok _ hstart with ⟨w, hw⟩
    have h1 : normalize_date_field (defaults fid input) "start" =
        .ok (storeKey (defaults fid input) "start" w) :=
      normalize_date_field_ok_of_norm _ _ _ hks (by rw [hsv]; exact hw)
    have hgv : getOrNone (storeKey (defaults fid input) "start" w) "end" =
        getOrNone input "end" := by
      rw [getOrNone_storeKey_ne _ _ _ _ (by decide)]
      exact getOrNone_defaults_ne fid input "end" (by decide) (by decide) (by decide)
    have hkend : hasKey (storeKey (defaults fid input) "start" w) "end" = true :=
      hasKey_of_isNull_false _ _ (by rw [hgv, hetv]; rfl)
    have h2 : normalize_date_field (storeKey (defaults fid input) "start" w) "end" =
        .error (.invalidMetadata ("could not parse a date from " ++ t)) :=
      normalize_date_field_err _ _ _ hkend
        (by rw [hgv, hetv]; exact normalize_date_str_fail t hp)
    rw [normalize_of_validate_ok fid input hval]
    exact normalize_dates_err_end _ _ _ h1 h2

/-- Claim C7 (corrected): the pipeline order presence-check, then
version-check, then parse-and-normalize, stated on observable failures.
Part one holds only under the proviso (forced by the counterexample) that
the other required fields are present and non-null and the version is
supported: then an input whose `start` is present but an unparsable string
fails with the Invalid Metadata parse failure naming the value, not a
missing-field failure.  Part two: when `version` is present, non-null and
wrong but one of `start`, `where`, `what`, `hash` is absent or null, the
failure is Invalid Metadata, not Unsupported Metadata Version — the
required-field check fires before the version check. -/
theorem claim_C7 (fid : String) (input : PyDict) :
    (∀ s : String,
      pyEqIntConst VERSION (getOrNone input "version") = true →
      (getOrNone input "where").isNull = false →
      (getOrNone input "what").isNull = false →
      (getOrNone input "hash").isNull = false →
      (hasKey input "id" = true → (getOrNone input "id").isNull = false) →
      getOrNone input "start" = .str s →
      parseISOChars s.toList = none →
      normalize fid input =
        .error (.invalidMetadata ("could not parse a date from " ++ s))) ∧
    ((getOrNone input "version").isNull = false →
      pyEqIntConst VERSION (getOrNone input "version") = false →
      ((getOrNone input "start").isNull = true ∨
        (getOrNone input "where").isNull = true ∨
        (getOrNone input "what").isNull = true ∨
        (getOrNone input "hash").isNull = true) →
      isInvalidMetadataErr (normalize fid input) = true ∧
        isUnsupportedVersionErr (normalize fid input) = false) := by
  constructor
  · intro s hver hwhere hwhat hhash hid hs hp
    have hval := validate_defaults_ok fid input hver (by rw [hs]; rfl)
      hwhere hwhat hhash hid
    exact normalize_parse_fail_start fid input s hval hs hp
  · intro hvn hvne h
    have key : ∃ msg, normalize fid input = .error (.invalidMetadata msg) := by
      rcases h with h | h | h | h
      · exact normalize_invalid_of_field_null fid input "start" (by decide)
          (by decide) (by decide) (by decide) h
      · exact normalize_invalid_of_field_null fid input "where" (by decide)
          (by decide) (by decide) (by decide) h
      · exact normalize_invalid_of_field_null fid input "what" (by decide)
          (by decide) (by decide) (by decide) h
      · exact normalize_invalid_of_field_null fid input "hash" (by decide)
          (by decide) (by decide) (by decide) h
    rcases key with ⟨msg, hmsg⟩
    rw [hmsg]
    exact ⟨rfl, rfl⟩

/-- Claim C7, counterexample to the claim as stated: in the input
`{start: "not-a-date"}` the `start` is present and unparsable, yet the
failure is the missing-field rejection for `where`, not the parse
failure — so "for every input where start is present but an unparsable
string, the failure is the parse failure" is false without the proviso
that the other required fields are present. -/
theorem claim_C7_cex :
    normalize "feedface" [("start", Value.str "not-a-date")] =
      .error (.invalidMetadata "\"where\" is a require field") ∧
    ("\"where\" is a require field" : String) ≠
      "could not parse a date from not-a-date" :=
  ⟨rfl, by decide⟩

/-- Claim C10 (confirmed, with the external parser modelled from the
spec): on an otherwise valid input whose `end` is present with a value
that is neither an int, nor a float, nor a string (for example a null
`end`), `normalize` raises an error that is neither Invalid Metadata nor
Unsupported Metadata Version: the handler around the date parse catches
only the parser's `ValueError`, so the parser's `TypeError` escapes. -/
theorem claim_C10 (fid : String) (input : PyDict)
    (hver : pyEqIntConst VERSION (getOrNone input "version") = true)
    (hwhere : (getOrNone input "where").isNull = false)
    (hwhat : (getOrNone input "what").isNull = false)
    (hhash : (getOrNone input "hash").isNull = false)
    (hid : hasKey input "id" = true → (getOrNone input "id").isNull = false)
    (hstart : isNormalizable (getOrNone input "start") = true)
    (hke : hasKey input "end" = true)
    (hbad : notIntFloatStr (getOrNone input "end") = true) :
    isTypeErrorResult (normalize fid input) = true ∧
      isInvalidMetadataErr (normalize fid input) = false ∧
      isUnsupportedVersionErr (normalize fid input) = false := by
  have hstartN : (getOrNone input "start").isNull = false :=
    isNormalizable_not_null _ hstart
  have hval := validate_defaults_ok fid input hver hstartN hwhere hwhat hhash hid
  have hsv : getOrNone (defaults fid input) "start" = getOrNone input "start" :=
    getOrNone_defaults_ne fid input "start" (by decide) (by decide) (by decide)
  have hks : hasKey (defaults fid input) "start" = true :=
    hasKey_of_isNull_false _ _ (by rw [hsv]; exact hstartN)
  rcases isNormalizable_ok _ hstart with ⟨w, hw⟩
  have h1 : normalize_date_field (defaults fid input) "start" =
      .ok (storeKey (defaults fid input) "start" w) :=
    normalize_date_field_ok_of_norm _ _ _ hks (by rw [hsv]; exact hw)
  have hgv : getOrNone (storeKey (defaults fid input) "start" w) "end" =
      getOrNone input "end" := by
    rw [getOrNone_storeKey_ne _ _ _ _ (by decide)]
    exact getOrNone_defaults_ne fid input "end" (by decide) (by decide) (by decide)
  have hkend : hasKey (storeKey (defaults fid input) "start" w) "end" = true := by
    rw [hasKey_storeKey_ne _ _ _ _ (by decide),
      hasKey_defaults_ne fid input "end" (by decide) (by decide) (by decide)]
    exact hke
  have h2 : normalize_date_field (storeKey (defaults fid input) "start" w) "end" =
      .error (.typeError "Parser must be a string or character stream") :=
    normalize_date_field_err _ _ _ hkend
      (by rw [hgv]; exact normalize_date_typeErr _ hbad)
  rw [normalize_of_validate_ok fid input hval,
    normalize_dates_err_end _ _ _ h1 h2]
  exact ⟨rfl, rfl, rfl⟩

end Datalake

namespace Datalake

/-! ### Concrete inputs and records for the witnesses -/

/-- Witness input for C1: all recognized fields supplied and well-formed. -/
def exInC1 : PyDict :=
  [("version", Value.int 0), ("start", Value.str "1970-01-01T00:00:01Z"),
    ("where", Value.str "w"), ("what", Value.str "t"), ("hash", Value.str "h"),
    ("id", Value.str "i1"), ("end", Value.int 5)]

/-- Witness input for C3: wrong version, everything else well-formed. -/
def exInC3 : PyDict :=
  [("version", Value.int 1), ("start", Value.int 0), ("where", Value.str "w"),
    ("what", Value.str "t"), ("hash", Value.str "h"), ("id", Value.str "i3")]

/-- The float value 3/2 (that is, 1.5) used by the witness inputs. -/
def exFloat32 : PyFloat := ⟨3, 2, by decide⟩

/-- Witness input for C4: a float `start` (exactly 3/2) and an int `end`. -/
def exInC4 : PyDict :=
  [("version", Value.int 0), ("start", Value.float exFloat32),
    ("where", Value.str "w"), ("what", Value.str "t"), ("hash", Value.str "h"),
    ("id", Value.str "i4"), ("work_id", Value.null), ("end", Value.int 7)]

/-- The record `normalize` produces from `exInC4`. -/
def exRecC4 : PyDict :=
  [("version", Value.int 0), ("start", Value.int 1500),
    ("where", Value.str "w"), ("what", Value.str "t"), ("hash", Value.str "h"),
    ("id", Value.str "i4"), ("work_id", Value.null), ("end", Value.int 7)]

/-- Witness input for C5, `start` with an explicit UTC offset. -/
def exInC5a : PyDict :=
  [("version", Value.int 0), ("start", Value.str "1970-01-01T00:00:01Z"),
    ("where", Value.str "w"), ("what", Value.str "t"), ("hash", Value.str "h")]

/-- The record `normalize "c5fresh"` produces from `exInC5a`. -/
def exRecC5a : PyDict :=
  [("version", Value.int 0), ("start", Value.int 1000),
    ("where", Value.str "w"), ("what", Value.str "t"), ("hash", Value.str "h"),
    ("id", Value.str "c5fresh"), ("work_id", Value.null)]

/-- Witness input for C5, `start` with no timezone (UTC assumed). -/
def exInC5b : PyDict :=
  [("version", Value.int 0), ("start", Value.str "1970-01-01T00:00:01"),
    ("where", Value.str "w"), ("what", Value.str "t"), ("hash", Value.str "h")]

/-- The record `normalize "c5fresh"` produces from `exInC5b`. -/
def exRecC5b : PyDict :=
  [("version", Value.int 0), ("start", Value.int 1000),
    ("where", Value.str "w"), ("what", Value.str "t"), ("hash", Value.str "h"),
    ("id", Value.str "c5fresh"), ("work_id", Value.null)]

/-- Witness input for C6, unparsable `start`. -/
def exInC6a : PyDict :=
  [("version", Value.int 0), ("start", Value.str "not-a-date"),
    ("where", Value.str "w"), ("what", Value.str "t"), ("hash", Value.str "h"),
    ("id", Value.str "i6")]

/-- Witness input for C6, unparsable `end` behind a normalizable `start`. -/
def exInC6b : PyDict :=
  [("version", Value.int 0), ("start", Value.int 0),
    ("end", Value.str "not-a-date"), ("where", Value.str "w"),
    ("what", Value.str "t"), ("hash", Value.str "h"), ("id", Value.str "i6")]

/-- Witness input for C7 part one, unparsable `start`, otherwise valid. -/
def exInC7a : PyDict :=
  [("version", Value.int 0), ("start", Value.str "not-a-date"),
    ("where", Value.str "w"), ("what", Value.str "t"), ("hash", Value.str "h"),
    ("id", Value.str "i7")]

/-- Witness input for C7 part two: wrong version and missing `start`. -/
def exInC7b : PyDict :=
  [("version", Value.int 5), ("where", Value.str "w"), ("what", Value.str "t"),
    ("hash", Value.str "h")]

/-- Witness input for C8: `id`, `version`, `work_id` all caller-supplied. -/
def exInC8 : PyDict :=
  [("id", Value.str "myid"), ("version", Value.int 0),
    ("work_id", Value.str "w1"), ("start", Value.float exFloat32),
    ("where", Value.str "w"), ("what", Value.str "t"), ("hash", Value.str "h")]

/-- The record `normalize` produces from `exInC8`. -/
def exRecC8 : PyDict :=
  [("id", Value.str "myid"), ("version", Value.int 0),
    ("work_id", Value.str "w1"), ("start", Value.int 1500),
    ("where", Value.str "w"), ("what", Value.str "t"), ("hash", Value.str "h")]

/-- Witness input for C10: a null `end` behind an otherwise valid input. -/
def exInC10 : PyDict :=
  [("version", Value.int 0), ("start", Value.int 0), ("end", Value.null),
    ("where", Value.str "w"), ("what", Value.str "t"), ("hash", Value.str "h"),
    ("id", Value.str "i10")]

/-! ### Witnesses -/

/-- Witness for C1 at `exInC1`. -/
theorem claim_C1_witness :
    resultHasNonNullId (normalize "c1fresh" exInC1) = true :=
  claim_C1 "c1fresh" exInC1 rfl rfl rfl rfl rfl (fun _ => rfl) (fun _ => rfl)

/-- Witness for C2: an input missing `start` entirely. -/
theorem claim_C2_witness :
    isInvalidMetadataErr (normalize "c2fresh"
      [("where", Value.str "w"), ("what", Value.str "t"),
        ("hash", Value.str "h")]) = true :=
  claim_C2 "c2fresh"
    [("where", Value.str "w"), ("what", Value.str "t"), ("hash", Value.str "h")]
    (Or.inl rfl)

/-- Witness for C3 at `exInC3` (version 1 against supported version 0). -/
theorem claim_C3_witness :
    isUnsupportedVersionErr (normalize "c3fresh" exInC3) = true ∧
      isInvalidMetadataErr (normalize "c3fresh" exInC3) = false :=
  claim_C3 "c3fresh" exInC3 rfl rfl rfl rfl rfl rfl (fun _ => rfl)

/-- Witness for C4 at `exInC4`: float `start` 3/2 becomes 1500, int `end` 7
passes through. -/
theorem claim_C4_witness :
    getOrNone exRecC4 "start" = Value.int 1500 ∧
      getOrNone exRecC4 "end" = Value.int 7 :=
  ⟨(claim_C4 "c4fresh" exInC4 exRecC4 rfl).2.1 exFloat32 rfl,
    (claim_C4 "c4fresh" exInC4 exRecC4 rfl).2.2.1 7 rfl⟩

/-- Witness for C5: both the `Z`-suffixed and the timezone-less string
yield `start = 1000`. -/
theorem claim_C5_witness :
    getOrNone exRecC5a "start" = Value.int 1000 ∧
      getOrNone exRecC5b "start" = Value.int 1000 :=
  ⟨claim_C5 "c5fresh" exInC5a exRecC5a "1970-01-01T00:00:01Z"
      (PyDateTime.mk 1 (some 0)) rfl rfl rfl,
    claim_C5 "c5fresh" exInC5b exRecC5b "1970-01-01T00:00:01"
      (PyDateTime.mk 1 none) rfl rfl rfl⟩

/-- Witness for C6 at `exInC6a` (unparsable `start`) and `exInC6b`
(unparsable `end`). -/
theorem claim_C6_witness :
    normalize "c6fresh" exInC6a =
      .error (.invalidMetadata "could not parse a date from not-a-date") ∧
    normalize "c6fresh" exInC6b =
      .error (.invalidMetadata "could not parse a date from not-a-date") :=
  ⟨(claim_C6 "c6fresh" exInC6a rfl rfl rfl rfl (fun _ => rfl)).1
      "not-a-date" rfl rfl,
    (claim_C6 "c6fresh" exInC6b rfl rfl rfl rfl (fun _ => rfl)).2
      "not-a-date" rfl rfl rfl⟩

/-- Witness for C7: at `exInC7a` the failure is the parse failure; at
`exInC7b` (wrong version, missing `start`) the failure is Invalid
Metadata, not Unsupported Metadata Version. -/
theorem claim_C7_witness :
    normalize "c7fresh" exInC7a =
      .error (.invalidMetadata "could not parse a date from not-a-date") ∧
    (isInvalidMetadataErr (normalize "c7fresh" exInC7b) = true ∧
      isUnsupportedVersionErr (normalize "c7fresh" exInC7b) = false) :=
  ⟨(claim_C7 "c7fresh" exInC7a).1 "not-a-date" rfl rfl rfl rfl
      (fun _ => rfl) rfl rfl,
    (claim_C7 "c7fresh" exInC7b).2 rfl rfl (Or.inl rfl)⟩

/-- Witness for C8 at `exInC8`: the caller-supplied `id`, `version`,
`work_id` bindings survive into the (otherwise changed) record. -/
theorem claim_C8_witness :
    lookupKey exRecC8 "id" = lookupKey exInC8 "id" ∧
      lookupKey exRecC8 "version" = lookupKey exInC8 "version" ∧
      lookupKey exRecC8 "work_id" = lookupKey exInC8 "work_id" :=
  claim_C8 "c8fresh" exInC8 exRecC8 rfl rfl rfl rfl

/-- Witness for C10 at `exInC10` (null `end`). -/
theorem claim_C10_witness :
    isTypeErrorResult (normalize "c10fresh" exInC10) = true ∧
      isInvalidMetadataErr (normalize "c10fresh" exInC10) = false ∧
      isUnsupportedVersionErr (normalize "c10fresh" exInC10) = false :=
  claim_C10 "c10fresh" exInC10 rfl rfl rfl rfl (fun _ => rfl) rfl rfl rfl

end Datalake
